import Mathlib

/-!
# MM-control-01: command processing, recovery loop and idle power-down

A shallow embedding of `main.cpp` of the MMU control firmware.

* Globals are fields of a state record `S`, split into the link-session fields
  (`Link`), the device-state fields (`Dev`) and the hardware inputs (`Hw`).
* Code is written in a state-and-trace monad `M`: a computation maps a state to
  a result, a new state and the list of events it produced on the serial wire,
  at the collaborators and at the sensors, in program order.
* Functions defined outside `main.cpp` (motion, drivers, LEDs, delays) are
  collaborators, supplied by an environment `Env`; they may change the whole
  state and produce events of their own.
* `process_commands` is recursive in the source (the Load branch calls it
  again); the embedding carries the allowed nesting depth. A run that exhausts
  the depth does not return, but keeps the events it produced until then.
-/

namespace MMU

/-! ## Data model -/

/-- Result of `buttonClicked()`. -/
inductive Button
  | ADC_Btn_None
  | ADC_Btn_Left
  | ADC_Btn_Middle
  | ADC_Btn_Right
  deriving DecidableEq, Repr

/-- Stepper axes named in `main.cpp`. -/
inductive Axis
  | AX_PUL
  | AX_SEL
  | AX_IDL
  deriving DecidableEq, Repr

/-- Three-byte reply payload handed to `txPayload`. -/
structure Payload where
  b0 : Nat
  b1 : Nat
  b2 : Nat
  deriving DecidableEq, Repr

/-- Distance argument of `moveSmooth`, kept symbolic: the constants and the
lookup table live outside `main.cpp`. -/
inductive Steps
  /-- The expression `EJECT_PULLEY_STEPS * -1`. -/
  | ejectPulleyBack
  /-- The expression `(BOWDEN_LENGTH * 1.5) * -1`. -/
  | bowdenBack
  /-- The entry `filament_lookup_table[3][ftype]`. -/
  | table3 (ftype : Nat)
  /-- An integer literal. -/
  | lit (n : Int)
  deriving DecidableEq, Repr

/-- Speed argument of `moveSmooth`: `filament_lookup_table[5][ftype]`,
multiplied by `1.8` when `scaled`. -/
structure Speed where
  ftype : Nat
  scaled : Bool
  deriving DecidableEq, Repr

/-- Arguments of one `moveSmooth` call; `untilFinda` is the trailing `true`
of the seven-argument calls. -/
structure MoveArgs where
  axis : Axis
  steps : Steps
  speed : Speed
  untilFinda : Bool
  deriving DecidableEq, Repr

/-- Calls into functions that are defined outside `main.cpp`. -/
inductive Collab
  | toolChange (ch : Nat)
  | set_positions (ch : Nat) (update : Bool)
  | feed_filament
  | unload_filament_withSensor
  | tmc2130_init (mode : Nat)
  | tmc2130_init_axis (axis : Axis) (mode : Nat)
  | wdt_enable
  | load_filament_into_extruder
  | eject_filament (ch : Nat)
  | recover_after_eject
  | delay (ms : Nat)
  | engage_filament_pulley (engage : Bool)
  | moveSmooth (args : MoveArgs)
  | shr16_clr_led
  | shr16_set_led (pattern : Nat) (slot : Int)
  | shr16_clr_ena (axis : Axis)
  | home (doToolSync : Bool)
  | setupMenu
  | disableAllSteppers
  deriving DecidableEq, Repr

/-- Observable events of a run, in program order. -/
inductive Event
  /-- The ACK byte written by `txACK()`. -/
  | ack
  /-- The NACK byte written by `txACK(false)`. -/
  | nack
  /-- A reply payload written by `txPayload`. -/
  | payload (p : Payload)
  /-- A collaborator was called. -/
  | call (c : Collab)
  /-- A call of `buttonClicked()` returned `b`. -/
  | button (b : Button)
  /-- A call of `isFilamentLoaded()` returned `v`. -/
  | finda (v : Bool)
  deriving DecidableEq, Repr

/-- Link-session globals read or written by `process_commands`. -/
structure Link where
  rxData1 : Nat
  rxData2 : Nat
  rxData3 : Nat
  rxCSUM1 : Nat
  rxCSUM2 : Nat
  confirmedPayload : Bool
  startRxFlag : Bool
  txRESEND : Bool
  pendingACK : Bool
  txNAKNext : Bool
  fsensor_triggered : Bool
  startTXTimeout : Nat
  lastTxPayload : Payload
  deriving DecidableEq, Repr

/-- Device-state globals. -/
structure Dev where
  active_extruder : Nat
  previous_extruder : Nat
  filament_type : List Nat
  isPrinting : Bool
  isEjected : Bool
  inErrorState : Bool
  duplicateTCmd : Bool
  m600RunoutChanging : Bool
  mmuFSensorLoading : Bool
  tmc2130_mode : Nat
  trackToolChanges : Nat
  startWakeTime : Nat
  deriving DecidableEq, Repr

/-- Hardware inputs: the millisecond clock, the enable bits of the shift
register, and the successive results of the filament sensor and of the
buttons, each with the number of readings taken so far. -/
structure Hw where
  millis : Nat
  shr16_ena : Nat
  finda : Nat → Bool
  findaReads : Nat
  buttons : Nat → Button
  buttonReads : Nat

/-- The whole program state. -/
structure S where
  link : Link
  dev : Dev
  hw : Hw

/-- Constants that `main.cpp` uses and `main.h` and friends define. -/
structure Config where
  EXTRUDERS : Nat
  WAKE_TIMER : Nat
  TXTimeout : Nat
  FW_VERSION : Nat
  FW_BUILDNR : Nat
  BLK : Nat
  NORMAL_MODE : Nat
  STEALTH_MODE : Nat
  OK : Payload

/-- The environment of `main.cpp`: what the collaborators do to the state and
which events they produce themselves, the result of a `moveSmooth` call
(`true` for `MR_Success`), and the bookkeeping of the two transmit routines on
the link-session fields. Collaborators are taken to return to their caller. -/
structure Env where
  run : Collab → S → S × List Event
  moveResult : MoveArgs → S → Bool
  ackLink : Bool → Link → Link
  payloadLink : Payload → Nat → Link → Link

/-! ## The state-and-trace monad -/

/-- A computation: from a state to the events produced and, when the
computation returns, its result and the next state. The second component is
`none` when the nesting depth or the iteration budget runs out; the events
produced before that point are kept. -/
def M (α : Type) : Type := S → List Event × Option (α × S)

/-- Return a value, touching nothing. -/
def M.ret {α : Type} (a : α) : M α := fun s => ([], some (a, s))

/-- Run `x`, then, if `x` returns, `f` on its result; the events are
concatenated. -/
def M.seq {α β : Type} (x : M α) (f : α → M β) : M β := fun s =>
  match x s with
  | (o1, none) => (o1, none)
  | (o1, some (a, s1)) =>
    match f a s1 with
    | (o2, r) => (o1 ++ o2, r)

instance : Monad M where
  pure := M.ret
  bind := M.seq

/-- Read the globals. -/
def getS : M S := fun s => ([], some (s, s))

/-- Write globals. -/
def modifyS (f : S → S) : M Unit := fun s => ([], some ((), f s))

/-- A computation that does not return. -/
def M.stuck {α : Type} : M α := fun _ => ([], none)

/-- Call a collaborator: the call is recorded, then the collaborator runs. -/
def invoke (env : Env) (c : Collab) : M Unit := fun s =>
  (Event.call c :: (env.run c s).2, some ((), (env.run c s).1))

/-- One call of `moveSmooth`, with its result (`true` for `MR_Success`). -/
def moveSmooth (env : Env) (a : MoveArgs) : M Bool := fun s =>
  (Event.call (Collab.moveSmooth a) :: (env.run (Collab.moveSmooth a) s).2,
    some (env.moveResult a s, (env.run (Collab.moveSmooth a) s).1))

/-- One call of `isFilamentLoaded()`: the next reading of the sensor. -/
def isFilamentLoaded : M Bool := fun s =>
  ([Event.finda (s.hw.finda s.hw.findaReads)],
    some (s.hw.finda s.hw.findaReads,
      { s with hw := { s.hw with findaReads := s.hw.findaReads + 1 } }))

/-- One call of `buttonClicked()`: the next reading of the buttons. -/
def buttonClicked : M Button := fun s =>
  ([Event.button (s.hw.buttons s.hw.buttonReads)],
    some (s.hw.buttons s.hw.buttonReads,
      { s with hw := { s.hw with buttonReads := s.hw.buttonReads + 1 } }))

/-- Modelled from the spec: `txACK`, defined in the uart module outside
`main.cpp`. It puts the single ACK byte (`true`) or NACK byte (`false`) on the
wire; its bookkeeping touches link-session fields only. -/
def txACK (env : Env) (ack : Bool) : M Unit := fun s =>
  ([if ack then Event.ack else Event.nack],
    some ((), { s with link := env.ackLink ack s.link }))

/-- Modelled from the spec: `txPayload`, defined in the uart module outside
`main.cpp`. It puts the three-byte reply on the wire; its bookkeeping (last
payload, pending acknowledgment, resend timer) touches link-session fields
only. -/
def txPayload (env : Env) (p : Payload) : M Unit := fun s =>
  ([Event.payload p],
    some ((), { s with link := env.payloadLink p s.hw.millis s.link }))

/-- The string literal `"Z1-"`. -/
def msgZ1 : Payload := ⟨'Z'.toNat, '1'.toNat, '-'.toNat⟩

/-- The string literal `"ZZZ"`. -/
def msgZZZ : Payload := ⟨'Z'.toNat, 'Z'.toNat, 'Z'.toNat⟩

/-- The string literal `"X1-"`. -/
def msgX1 : Payload := ⟨'X'.toNat, '1'.toNat, '-'.toNat⟩

/-- The entry `filament_type[i]`; an index past the table reads as `0`. -/
def ftypeAt (d : Dev) (i : Nat) : Nat := d.filament_type.getD i 0

/-! ## process_commands -/

/-- The received checksum as the unsigned 16-bit value `(rxCSUM1 << 8) | rxCSUM2`. -/
def rawCSUM (l : Link) : Nat := (l.rxCSUM1 % 256) * 256 + l.rxCSUM2 % 256

/-- The local `int16_t tCSUM = ((rxCSUM1 << 8) | rxCSUM2)`: the 16-bit value
read as signed. -/
def tCSUM (l : Link) : Int :=
  if rawCSUM l < 32768 then (rawCSUM l : Int) else (rawCSUM l : Int) - 65536

/-- The test `tCSUM == (tData1 + tData2 + tData3)` on the byte copies of the
frame. -/
def csumOK (l : Link) : Bool :=
  decide (tCSUM l = ((l.rxData1 % 256 + l.rxData2 % 256 + l.rxData3 % 256 : Nat) : Int))

/-- The test `(txRESEND) || (pendingACK && ((startTXTimeout + TXTimeout) <
millis()))`. The timer values are 32-bit millisecond counters: the sum wraps
around at `2 ^ 32`, as does the clock. -/
def resendDue (cfg : Config) (s : S) : Bool :=
  s.link.txRESEND ||
    (s.link.pendingACK &&
      decide ((s.link.startTXTimeout + cfg.TXTimeout) % 2 ^ 32 < s.hw.millis % 2 ^ 32))

/-- The command branches of `process_commands` (the body of
`else if (confPayload && !inErrorState)` after its `txACK()`), on the byte
copies of the frame; `nested` is the recursive call of `process_commands`. -/
def dispatchCommand (cfg : Config) (env : Env) (nested : M Unit)
    (tData1 tData2 tData3 : Nat) : M Unit := do
  if tData1 = 'T'.toNat then
    if tData2 < cfg.EXTRUDERS then
      let s ← getS
      let loaded ← (if s.dev.active_extruder = tData2 then isFilamentLoaded else pure false)
      let s ← getS
      if decide (s.dev.active_extruder = tData2) && loaded && !s.dev.m600RunoutChanging then
        modifyS fun s => { s with dev := { s.dev with duplicateTCmd := true } }
        txPayload env cfg.OK
      else
        modifyS fun s => { s with dev := { s.dev with m600RunoutChanging := false } }
        modifyS fun s => { s with dev := { s.dev with mmuFSensorLoading := true } }
        modifyS fun s => { s with dev := { s.dev with duplicateTCmd := false } }
        invoke env (Collab.toolChange tData2)
        txPayload env cfg.OK
  else if tData1 = 'L'.toNat then
    if tData2 < cfg.EXTRUDERS then
      if (← isFilamentLoaded) then
        txPayload env msgZ1
        invoke env (Collab.delay 1000)
        nested
        txPayload env msgZZZ
      else
        invoke env (Collab.set_positions tData2 true)
        invoke env Collab.feed_filament
      txPayload env cfg.OK
  else if tData1 = 'U'.toNat ∧ tData2 = '0'.toNat then
    invoke env Collab.unload_filament_withSensor
    txPayload env cfg.OK
    modifyS fun s => { s with dev := { s.dev with isPrinting := false } }
    modifyS fun s => { s with dev := { s.dev with trackToolChanges := 0 } }
  else if tData1 = 'S'.toNat then
    if tData2 = '0'.toNat then
      txPayload env cfg.OK
    else if tData2 = '1'.toNat then
      txPayload env ⟨(cfg.FW_VERSION / 256) % 256, cfg.FW_VERSION % 256, cfg.BLK % 256⟩
    else if tData2 = '2'.toNat then
      txPayload env ⟨(cfg.FW_BUILDNR / 256) % 256, cfg.FW_BUILDNR % 256, cfg.BLK % 256⟩
    else if tData2 = '3'.toNat then
      let s ← getS
      txPayload env ⟨'O'.toNat, 'K'.toNat, s.dev.active_extruder % 256⟩
  else if tData1 = 'M'.toNat then
    if tData2 = '0'.toNat then
      modifyS fun s => { s with dev := { s.dev with tmc2130_mode := cfg.NORMAL_MODE } }
    if tData2 = '1'.toNat then
      modifyS fun s => { s with dev := { s.dev with tmc2130_mode := cfg.STEALTH_MODE } }
    let s ← getS
    invoke env (Collab.tmc2130_init s.dev.tmc2130_mode)
    txPayload env cfg.OK
  else if tData1 = 'F'.toNat then
    if tData2 < cfg.EXTRUDERS ∧ tData3 ≤ 2 then
      modifyS fun s =>
        { s with dev := { s.dev with filament_type := s.dev.filament_type.set tData2 tData3 } }
      txPayload env cfg.OK
  else if tData1 = 'X'.toNat ∧ tData2 = '0'.toNat then
    invoke env Collab.wdt_enable
  else if tData1 = 'P'.toNat ∧ tData2 = '0'.toNat then
    let s ← getS
    if s.dev.isPrinting then
      let f ← isFilamentLoaded
      txPayload env ⟨'P'.toNat, 'K'.toNat, if f then 1 else 0⟩
    else
      txPayload env ⟨'P'.toNat, 'K'.toNat, 1⟩
  else if tData1 = 'C'.toNat ∧ tData2 = '0'.toNat then
    let s ← getS
    if !s.dev.duplicateTCmd then
      txPayload env cfg.OK
      invoke env (Collab.delay 5)
      invoke env Collab.load_filament_into_extruder
    else
      txPayload env cfg.OK
  else if tData1 = 'E'.toNat then
    if tData2 < cfg.EXTRUDERS then
      modifyS fun s => { s with dev := { s.dev with m600RunoutChanging := true } }
      invoke env (Collab.eject_filament tData2)
      txPayload env cfg.OK
  else if tData1 = 'R'.toNat ∧ tData2 = '0'.toNat then
    invoke env Collab.recover_after_eject
    txPayload env cfg.OK

/-- The body of `process_commands`, with its recursive call as `nested`. -/
def processBody (cfg : Config) (env : Env) (nested : M Unit) : M Unit := do
  let s ← getS
  let tData1 := s.link.rxData1 % 256
  let tData2 := s.link.rxData2 % 256
  let tData3 := s.link.rxData3 % 256
  let csum := csumOK s.link
  let confPayload := s.link.confirmedPayload
  if resendDue cfg s then
    modifyS fun s => { s with link := { s.link with txRESEND := false } }
    modifyS fun s => { s with link := { s.link with confirmedPayload := false } }
    modifyS fun s => { s with link := { s.link with startRxFlag := false } }
    let s ← getS
    txPayload env s.link.lastTxPayload
  else
    if (← getS).link.fsensor_triggered then
      txACK env true
      modifyS fun s => { s with link := { s.link with fsensor_triggered := false } }
    let s ← getS
    if (confPayload && !csum) || s.link.txNAKNext then
      txACK env false
    else if confPayload && !s.dev.inErrorState then
      txACK env true
      dispatchCommand cfg env nested tData1 tData2 tData3

/-- The function `process_commands()`, allowed `depth` further nested calls of
itself. -/
def process_commands (cfg : Config) (env : Env) : Nat → M Unit
  | 0 => processBody cfg env M.stuck
  | depth + 1 => processBody cfg env (process_commands cfg env depth)

/-! ## fixTheProblem -/

/-- The loop test of `fixTheProblem`,
`(ADC_Btn_Middle != buttonClicked()) || isFilamentLoaded()`: `true` keeps the
loop running. The sensor is read only when the middle button was clicked. -/
def problemPersists : M Bool := do
  if (← buttonClicked) ≠ Button.ADC_Btn_Middle then pure true else isFilamentLoaded

/-- The body of the loop of `fixTheProblem` after its `process_commands()`. -/
def jogFilament (env : Env) (showPrevious : Bool) : M Unit := do
  if !showPrevious then
    match (← buttonClicked) with
    | Button.ADC_Btn_Right =>
      invoke env (Collab.engage_filament_pulley true)
      if (← isFilamentLoaded) then
        let s ← getS
        if (← moveSmooth env ⟨Axis.AX_PUL, Steps.bowdenBack,
              ⟨ftypeAt s.dev s.dev.active_extruder, false⟩, true⟩) then
          let s ← getS
          let _ ← moveSmooth env ⟨Axis.AX_PUL, Steps.table3 (ftypeAt s.dev s.dev.active_extruder),
              ⟨ftypeAt s.dev s.dev.active_extruder, false⟩, false⟩
      else
        let s ← getS
        let _ ← moveSmooth env ⟨Axis.AX_PUL, Steps.lit (-300),
            ⟨ftypeAt s.dev s.dev.active_extruder, false⟩, false⟩
      invoke env (Collab.engage_filament_pulley false)
      invoke env (Collab.shr16_clr_ena Axis.AX_IDL)
    | Button.ADC_Btn_Left =>
      invoke env (Collab.engage_filament_pulley true)
      let s ← getS
      let _ ← moveSmooth env ⟨Axis.AX_PUL, Steps.lit 300,
          ⟨ftypeAt s.dev s.dev.previous_extruder, true⟩, false⟩
      invoke env (Collab.engage_filament_pulley false)
      invoke env (Collab.shr16_clr_ena Axis.AX_IDL)
    | _ => pure ()
    invoke env (Collab.delay 100)
    invoke env Collab.shr16_clr_led
    invoke env (Collab.delay 100)
    if (← isFilamentLoaded) then
      let s ← getS
      invoke env (Collab.shr16_set_led 2 (4 - (s.dev.active_extruder : Int)))
    else
      let s ← getS
      invoke env (Collab.shr16_set_led 1 (4 - (s.dev.active_extruder : Int)))
  else
    match (← buttonClicked) with
    | Button.ADC_Btn_Right =>
      invoke env (Collab.engage_filament_pulley true)
      if (← isFilamentLoaded) then
        let s ← getS
        if (← moveSmooth env ⟨Axis.AX_PUL, Steps.bowdenBack,
              ⟨ftypeAt s.dev s.dev.previous_extruder, true⟩, true⟩) then
          let s ← getS
          let _ ← moveSmooth env ⟨Axis.AX_PUL, Steps.table3 (ftypeAt s.dev s.dev.previous_extruder),
              ⟨ftypeAt s.dev s.dev.previous_extruder, true⟩, false⟩
      else
        let s ← getS
        let _ ← moveSmooth env ⟨Axis.AX_PUL, Steps.lit (-300),
            ⟨ftypeAt s.dev s.dev.previous_extruder, true⟩, false⟩
      invoke env (Collab.engage_filament_pulley false)
      invoke env (Collab.shr16_clr_ena Axis.AX_IDL)
    | Button.ADC_Btn_Left =>
      invoke env (Collab.engage_filament_pulley true)
      let s ← getS
      let _ ← moveSmooth env ⟨Axis.AX_PUL, Steps.lit 300,
          ⟨ftypeAt s.dev s.dev.previous_extruder, true⟩, false⟩
      invoke env (Collab.engage_filament_pulley false)
      invoke env (Collab.shr16_clr_ena Axis.AX_IDL)
    | _ => pure ()
    invoke env (Collab.delay 100)
    invoke env Collab.shr16_clr_led
    let s ← getS
    if s.dev.active_extruder ≠ s.dev.previous_extruder then
      invoke env (Collab.shr16_set_led 1 (4 - (s.dev.active_extruder : Int)))
    invoke env (Collab.delay 100)
    if (← isFilamentLoaded) then
      let s ← getS
      invoke env (Collab.shr16_set_led 2 (4 - (s.dev.previous_extruder : Int)))
    else
      let s ← getS
      invoke env (Collab.shr16_set_led 1 (4 - (s.dev.previous_extruder : Int)))

/-- The `while` loop of `fixTheProblem`, allowed at most `n` loop tests. -/
def fixLoop (cfg : Config) (env : Env) (depth : Nat) (showPrevious : Bool) : Nat → M Unit
  | 0 => M.stuck
  | n + 1 => do
    if (← problemPersists) then
      process_commands cfg env depth
      jogFilament env showPrevious
      fixLoop cfg env depth showPrevious n

/-- The function `fixTheProblem(showPrevious)`, its loop allowed at most `n`
loop tests. -/
def fixTheProblem (cfg : Config) (env : Env) (depth : Nat) (showPrevious : Bool)
    (n : Nat) : M Unit := do
  invoke env (Collab.engage_filament_pulley false)
  invoke env (Collab.shr16_clr_ena Axis.AX_SEL)
  invoke env (Collab.shr16_clr_ena Axis.AX_IDL)
  modifyS fun s => { s with dev := { s.dev with inErrorState := true } }
  fixLoop cfg env depth showPrevious n
  invoke env (Collab.delay 100)
  let s ← getS
  invoke env (Collab.tmc2130_init_axis Axis.AX_SEL s.dev.tmc2130_mode)
  let s ← getS
  invoke env (Collab.tmc2130_init_axis Axis.AX_IDL s.dev.tmc2130_mode)
  modifyS fun s => { s with dev := { s.dev with inErrorState := false } }
  process_commands cfg env depth
  txPayload env msgZZZ
  invoke env (Collab.home true)
  modifyS fun s => { s with dev := { s.dev with trackToolChanges := 0 } }

/-! ## loop -/

/-- The function `manual_extruder_selector()`. -/
def manual_extruder_selector (cfg : Config) (env : Env) (depth : Nat) : M Unit := do
  invoke env Collab.shr16_clr_led
  let s ← getS
  invoke env (Collab.shr16_set_led 1 (4 - (s.dev.active_extruder : Int)))
  if !(← isFilamentLoaded) then
    match (← buttonClicked) with
    | Button.ADC_Btn_Right =>
      let s ← getS
      if s.dev.active_extruder < cfg.EXTRUDERS then
        invoke env (Collab.set_positions (s.dev.active_extruder + 1) true)
      let s ← getS
      if s.dev.active_extruder = cfg.EXTRUDERS then
        txPayload env msgX1
    | Button.ADC_Btn_Left =>
      let s ← getS
      if s.dev.active_extruder = cfg.EXTRUDERS then
        txPayload env msgZZZ
      let s ← getS
      if 0 < s.dev.active_extruder then
        invoke env (Collab.set_positions (s.dev.active_extruder - 1) true)
    | _ => pure ()
  else
    match (← buttonClicked) with
    | Button.ADC_Btn_Right | Button.ADC_Btn_Left =>
      txPayload env msgZ1
      invoke env (Collab.delay 1000)
      process_commands cfg env depth
      txPayload env msgZZZ
    | _ => pure ()
  let s ← getS
  if s.dev.active_extruder = 5 then
    invoke env Collab.shr16_clr_led
    invoke env (Collab.shr16_set_led 3 0)
    invoke env (Collab.delay 100)
    invoke env Collab.shr16_clr_led
    invoke env (Collab.delay 100)

/-- The difference `millis() - startWakeTime`, in 32-bit unsigned arithmetic. -/
def elapsedSinceWake (s : S) : Nat :=
  (s.hw.millis % 2 ^ 32 + 2 ^ 32 - s.dev.startWakeTime % 2 ^ 32) % 2 ^ 32

/-- The last statement of `loop()`:
`if (((millis() - startWakeTime) > WAKE_TIMER) && !isFilamentLoaded() &&
!isPrinting && (shr16_get_ena() != 111)) disableAllSteppers();` -/
def idlePowerDown (cfg : Config) (env : Env) : M Unit := do
  let s ← getS
  if cfg.WAKE_TIMER < elapsedSinceWake s then
    if !(← isFilamentLoaded) then
      let s ← getS
      if !s.dev.isPrinting then
        if s.hw.shr16_ena ≠ 111 then
          invoke env Collab.disableAllSteppers

/-- The statements of `loop()` before the idle power-down check. -/
def serveAndSelect (cfg : Config) (env : Env) (depth : Nat) : M Unit := do
  process_commands cfg env depth
  let s ← getS
  if !s.dev.isPrinting && !s.dev.isEjected then
    manual_extruder_selector cfg env depth
    if (← buttonClicked) = Button.ADC_Btn_Middle then
      let s ← getS
      if s.dev.active_extruder < cfg.EXTRUDERS then
        invoke env Collab.feed_filament
      else if s.dev.active_extruder = cfg.EXTRUDERS then
        invoke env Collab.setupMenu
  else if s.dev.isEjected then
    match (← buttonClicked) with
    | Button.ADC_Btn_Right =>
      invoke env (Collab.engage_filament_pulley true)
      let s ← getS
      let _ ← moveSmooth env ⟨Axis.AX_PUL, Steps.ejectPulleyBack,
          ⟨ftypeAt s.dev s.dev.previous_extruder, false⟩, false⟩
      invoke env (Collab.engage_filament_pulley false)
    | _ => pure ()

/-- One pass of `loop()`. -/
def loop (cfg : Config) (env : Env) (depth : Nat) : M Unit := do
  serveAndSelect cfg env depth
  idlePowerDown cfg env

/-! ## Auxiliary definitions for the statements -/

/-- The recursive call available to `process_commands` at nesting depth `depth`. -/
def nestedCall (cfg : Config) (env : Env) : Nat → M Unit
  | 0 => M.stuck
  | depth + 1 => process_commands cfg env depth

/-- The sum `tData1 + tData2 + tData3` of the byte copies of the frame. -/
def payloadSum (l : Link) : Nat := l.rxData1 % 256 + l.rxData2 % 256 + l.rxData3 % 256

/-- The link-session fields after lines 186 to 189 of `process_commands`
(the `if (fsensor_triggered)` block). -/
def afterFsensor (env : Env) (l : Link) : Link :=
  if l.fsensor_triggered then { env.ackLink true l with fsensor_triggered := false } else l

/-- The events of lines 186 to 189 of `process_commands`. -/
def fsensorAcks (l : Link) : List Event :=
  if l.fsensor_triggered then [Event.ack] else []

/-- The state in which the command branches start: after the `if
(fsensor_triggered)` block and the `txACK()` of line 193. -/
def ackedState (env : Env) (s : S) : S :=
  { s with link := env.ackLink true (afterFsensor env s.link) }

/-- Put `pre` in front of the events of a run. -/
def prependEvents (pre : List Event) (r : List Event × Option (Unit × S)) :
    List Event × Option (Unit × S) :=
  (pre ++ r.1, r.2)

/-- The events of a run that returned; `none` for a run that did not. -/
def eventsOf (r : List Event × Option (Unit × S)) : Option (List Event) :=
  r.2.map fun _ => r.1

/-- The device-state fields at the return of a run. -/
def devOf (r : List Event × Option (Unit × S)) : Option Dev :=
  r.2.map fun x => x.2.dev

/-! ## A concrete configuration, environment and states for examples -/

/-- Five filament channels; `OK` is the text `"OK-"`. -/
def cfg5 : Config :=
  { EXTRUDERS := 5, WAKE_TIMER := 300000, TXTimeout := 60, FW_VERSION := 306,
    FW_BUILDNR := 373, BLK := 45, NORMAL_MODE := 0, STEALTH_MODE := 1,
    OK := ⟨'O'.toNat, 'K'.toNat, '-'.toNat⟩ }

/-- An environment whose collaborators return at once and change nothing; the
transmit routines retain the payload and arm the resend timer, and an ACK or
NACK closes the received frame. -/
def quietEnv : Env :=
  { run := fun _ s => (s, [])
    moveResult := fun _ _ => true
    ackLink := fun ack l =>
      { l with confirmedPayload := false, startRxFlag := false,
               txNAKNext := ack && l.txNAKNext }
    payloadLink := fun p now l =>
      { l with lastTxPayload := p, pendingACK := true, startTXTimeout := now } }

/-- A link with the confirmed frame `b1 b2 b3` and checksum bytes `c1 c2`. -/
def frameLink (b1 b2 b3 c1 c2 : Nat) : Link :=
  { rxData1 := b1, rxData2 := b2, rxData3 := b3, rxCSUM1 := c1, rxCSUM2 := c2,
    confirmedPayload := true, startRxFlag := false, txRESEND := false,
    pendingACK := false, txNAKNext := false, fsensor_triggered := false,
    startTXTimeout := 0, lastTxPayload := ⟨'O'.toNat, 'K'.toNat, '-'.toNat⟩ }

/-- Channel 1 selected, not printing, no error. -/
def dev1 : Dev :=
  { active_extruder := 1, previous_extruder := 0, filament_type := [0, 0, 0, 0, 0],
    isPrinting := false, isEjected := false, inErrorState := false,
    duplicateTCmd := false, m600RunoutChanging := false, mmuFSensorLoading := false,
    tmc2130_mode := 0, trackToolChanges := 0, startWakeTime := 0 }

/-- Clock at 1000 ms, the sensor reading `loaded` and the button `b` forever. -/
def hwConst (loaded : Bool) (b : Button) : Hw :=
  { millis := 1000, shr16_ena := 0, finda := fun _ => loaded, findaReads := 0,
    buttons := fun _ => b, buttonReads := 0 }

/-- The state of the examples: link `l`, device `d`, the sensor reading
`loaded` and the buttons reading `b`. -/
def stateOf (l : Link) (d : Dev) (loaded : Bool) (b : Button) : S :=
  { link := l, dev := d, hw := hwConst loaded b }

/-- The frame `T 1` with its checksum `'T' + 1 = 85`, channel 1 active and loaded. -/
def toolChangeState : S := stateOf (frameLink 'T'.toNat 1 0 0 85) dev1 true Button.ADC_Btn_None

/-- The same frame `T 1` and checksum, received while `inErrorState` is set. -/
def errorState : S :=
  stateOf (frameLink 'T'.toNat 1 0 0 85) { dev1 with inErrorState := true } true
    Button.ADC_Btn_None

/-- The frame `T 1` with the wrong checksum `86`. -/
def badSumState : S := stateOf (frameLink 'T'.toNat 1 0 0 86) dev1 true Button.ADC_Btn_None

/-- The frame `T 1` with the wrong checksum `86`, and `fsensor_triggered` set. -/
def badSumFsensorState : S :=
  stateOf { frameLink 'T'.toNat 1 0 0 86 with fsensor_triggered := true } dev1 true
    Button.ADC_Btn_None

/-- The frame `T 1` in the buffer while a resend of `"OK-"` is requested. -/
def resendState : S :=
  stateOf { frameLink 'T'.toNat 1 0 0 85 with txRESEND := true } dev1 true Button.ADC_Btn_None

/-- The error state with a resend requested. -/
def errorResendState : S :=
  stateOf { frameLink 'T'.toNat 1 0 0 85 with txRESEND := true } { dev1 with inErrorState := true }
    true Button.ADC_Btn_None

/-- The error state with the frame `T 1` and the wrong checksum `86`. -/
def errorBadSumState : S :=
  stateOf (frameLink 'T'.toNat 1 0 0 86) { dev1 with inErrorState := true } true
    Button.ADC_Btn_None

/-- The frame `L 1` with its checksum `'L' + 1 = 77`, filament present. -/
def loadState : S := stateOf (frameLink 'L'.toNat 1 0 0 77) dev1 true Button.ADC_Btn_None

/-- The frame `T 7` with its checksum `91`: channel 7 does not exist. -/
def badChannelState : S := stateOf (frameLink 'T'.toNat 7 0 0 91) dev1 true Button.ADC_Btn_None

/-- The frame `M 5` with its checksum `'M' + '5' = 130`. -/
def badModeState : S :=
  stateOf (frameLink 'M'.toNat '5'.toNat 0 0 130) dev1 false Button.ADC_Btn_None

/-- The frame `S 3` with its checksum `'S' + '3' = 134`, channel 2 active. -/
def startQueryState : S :=
  stateOf (frameLink 'S'.toNat '3'.toNat 0 0 134) { dev1 with active_extruder := 2 } false
    Button.ADC_Btn_None

/-- Hardware inputs that replay the given button and sensor readings, then
read "no button" and "no filament"; the clock stands at `now`. -/
def hwReplay (now ena : Nat) (buttons : List Button) (finda : List Bool) : Hw :=
  { millis := now, shr16_ena := ena, finda := fun i => finda.getD i false, findaReads := 0,
    buttons := fun i => buttons.getD i Button.ADC_Btn_None, buttonReads := 0 }

/-- A link with nothing received and nothing pending. -/
def silentLink : Link :=
  { frameLink 0 0 0 0 0 with confirmedPayload := false }

/-- A recovery in progress: the loop tests read Left, then Middle with filament
still present, then Middle with filament gone; in between the operator jogs
with the right button. -/
def recoveryState : S :=
  { link := silentLink
    dev := { dev1 with inErrorState := true }
    hw := hwReplay 1000 0
      [Button.ADC_Btn_Left, Button.ADC_Btn_Right, Button.ADC_Btn_Middle, Button.ADC_Btn_None,
        Button.ADC_Btn_Middle]
      [true, true, true, false, false] }

/-- An idle unit: nothing received, not printing, no filament, no button, the
drivers enabled and the last wake 400 s ago. -/
def idleState : S :=
  { link := silentLink, dev := dev1, hw := hwReplay 400000 0 [] [] }

/-- The events of the recovery loop run from `recoveryState` with
`showPrevious = false`: three loop tests, the last one reading the middle
button and no filament. -/
def recoveryEvents : List Event :=
  [Event.button Button.ADC_Btn_Left,
   Event.button Button.ADC_Btn_Right,
   Event.call (Collab.engage_filament_pulley true),
   Event.finda true,
   Event.call (Collab.moveSmooth ⟨Axis.AX_PUL, Steps.bowdenBack, ⟨0, false⟩, true⟩),
   Event.call (Collab.moveSmooth ⟨Axis.AX_PUL, Steps.table3 0, ⟨0, false⟩, false⟩),
   Event.call (Collab.engage_filament_pulley false),
   Event.call (Collab.shr16_clr_ena Axis.AX_IDL),
   Event.call (Collab.delay 100),
   Event.call Collab.shr16_clr_led,
   Event.call (Collab.delay 100),
   Event.finda true,
   Event.call (Collab.shr16_set_led 2 3),
   Event.button Button.ADC_Btn_Middle,
   Event.finda true,
   Event.button Button.ADC_Btn_None,
   Event.call (Collab.delay 100),
   Event.call Collab.shr16_clr_led,
   Event.call (Collab.delay 100),
   Event.finda false,
   Event.call (Collab.shr16_set_led 1 3),
   Event.button Button.ADC_Btn_Middle,
   Event.finda false]

/-- The events of one pass of `loop()` from `idleState`. -/
def idleEvents : List Event :=
  [Event.call Collab.shr16_clr_led,
   Event.call (Collab.shr16_set_led 1 3),
   Event.finda false,
   Event.button Button.ADC_Btn_None,
   Event.button Button.ADC_Btn_None,
   Event.finda false,
   Event.call Collab.disableAllSteppers]

/-- A computation that returns from every state. -/
def Returns {α : Type} (x : M α) : Prop := ∀ s, (x s).2.isSome = true

/-! ## Reasoning about computations -/

@[simp] theorem pure_run {α : Type} (a : α) (s : S) :
    (pure a : M α) s = ([], some (a, s)) := rfl

@[simp] theorem bind_run {α β : Type} (x : M α) (f : α → M β) (s : S) :
    (x >>= f) s = M.seq x f s := rfl

/-- The two components of a sequence. -/
theorem seq_run {α β : Type} (x : M α) (f : α → M β) (s : S) :
    M.seq x f s =
      ((x s).1 ++ (match (x s).2 with
          | none => []
          | some r => (f r.1 r.2 ).1),
        (x s).2.bind fun r => (f r.1 r.2).2) := by
  unfold M.seq
  rcases x s with ⟨o1, _ | ⟨a, s1⟩⟩
  · simp
  · rcases f a s1 with ⟨o2, r⟩
    simp

theorem process_commands_eq (cfg : Config) (env : Env) (depth : Nat) :
    process_commands cfg env depth = processBody cfg env (nestedCall cfg env depth) := by
  cases depth <;> rfl

theorem rawCSUM_lt (l : Link) : rawCSUM l < 65536 := by
  unfold rawCSUM
  omega

theorem payloadSum_lt (l : Link) : payloadSum l < 766 := by
  unfold payloadSum
  omega

/-- The signed 16-bit comparison of the source agrees with comparing the
unsigned checksum with the byte sum. -/
theorem csumOK_iff (l : Link) : csumOK l = true ↔ rawCSUM l = payloadSum l := by
  have h1 := rawCSUM_lt l
  have h2 := payloadSum_lt l
  unfold csumOK tCSUM
  rw [decide_eq_true_iff]
  change (if rawCSUM l < 32768 then (rawCSUM l : Int) else (rawCSUM l : Int) - 65536)
    = ((payloadSum l : Nat) : Int) ↔ _
  split <;> omega

theorem csumOK_false_iff (l : Link) : csumOK l = false ↔ rawCSUM l ≠ payloadSum l := by
  rw [Ne, ← csumOK_iff]
  simp

/-- While neither the deadline nor the clock has wrapped around, the timer
part of the resend test says that the clock is past the deadline
`startTXTimeout + TXTimeout`. -/
theorem resend_deadline_no_wrap (cfg : Config) (s : S)
    (hd : s.link.startTXTimeout + cfg.TXTimeout < 2 ^ 32) (hm : s.hw.millis < 2 ^ 32) :
    (s.link.startTXTimeout + cfg.TXTimeout) % 2 ^ 32 < s.hw.millis % 2 ^ 32 ↔
      s.link.startTXTimeout + cfg.TXTimeout < s.hw.millis := by
  rw [Nat.mod_eq_of_lt hd, Nat.mod_eq_of_lt hm]

/-- Link layer, dispatching case: with no resend due, a confirmed frame, a
matching checksum, no NACK requested and no error state, `process_commands`
sends its ACK and then runs the command branches once on the frame. -/
theorem process_commands_dispatched (cfg : Config) (env : Env) (depth : Nat) (s : S)
    (hres : resendDue cfg s = false)
    (hconf : s.link.confirmedPayload = true)
    (hcs : rawCSUM s.link = payloadSum s.link)
    (hnak : (afterFsensor env s.link).txNAKNext = false)
    (herr : s.dev.inErrorState = false) :
    process_commands cfg env depth s =
      prependEvents (fsensorAcks s.link ++ [Event.ack])
        (dispatchCommand cfg env (nestedCall cfg env depth)
          (s.link.rxData1 % 256) (s.link.rxData2 % 256) (s.link.rxData3 % 256)
          (ackedState env s)) := by
  have hc := (csumOK_iff s.link).2 hcs
  rw [process_commands_eq]
  unfold afterFsensor at hnak
  by_cases hf : s.link.fsensor_triggered = true
  · simp [hf] at hnak
    simp [processBody, seq_run, getS, modifyS, txACK, hres, hconf, hc, hnak, herr, hf,
      prependEvents, fsensorAcks, ackedState, afterFsensor]
  · simp [hf] at hnak
    simp [processBody, seq_run, getS, modifyS, txACK, hres, hconf, hc, hnak, herr, hf,
      prependEvents, fsensorAcks, ackedState, afterFsensor]

theorem returns_pure {α : Type} (a : α) : Returns (pure a : M α) := fun _ => rfl

theorem returns_getS : Returns getS := fun _ => rfl

theorem returns_modifyS (f : S → S) : Returns (modifyS f) := fun _ => rfl

theorem returns_invoke (env : Env) (c : Collab) : Returns (invoke env c) := fun _ => rfl

theorem returns_moveSmooth (env : Env) (a : MoveArgs) : Returns (moveSmooth env a) :=
  fun _ => rfl

theorem returns_txPayload (env : Env) (p : Payload) : Returns (txPayload env p) :=
  fun _ => rfl

theorem returns_txACK (env : Env) (b : Bool) : Returns (txACK env b) := fun _ => rfl

theorem returns_isFilamentLoaded : Returns isFilamentLoaded := fun _ => rfl

theorem returns_buttonClicked : Returns buttonClicked := fun _ => rfl

theorem returns_bind {α β : Type} (x : M α) (f : α → M β)
    (hx : Returns x) (hf : ∀ a, Returns (f a)) : Returns (x >>= f) := by
  intro s
  have h1 := hx s
  rcases hxs : (x s).2 with _ | r
  · simp [hxs] at h1
  · have h2 := hf r.1 r.2
    simp only [bind_run, seq_run, hxs, Option.bind_some]
    exact h2

theorem returns_ite {α : Type} (c : Prop) [Decidable c] (x y : M α)
    (hx : Returns x) (hy : Returns y) : Returns (if c then x else y) := by
  split <;> assumption

/-- The command branches return for every frame other than a Load. -/
theorem dispatchCommand_returns (cfg : Config) (env : Env) (nested : M Unit)
    (t1 t2 t3 : Nat) (h : t1 ≠ 'L'.toNat) :
    Returns (dispatchCommand cfg env nested t1 t2 t3) := by
  unfold dispatchCommand
  rw [if_neg h]
  repeat first
    | exact returns_getS
    | exact returns_modifyS _
    | exact returns_invoke _ _
    | exact returns_txPayload _ _
    | exact returns_isFilamentLoaded
    | exact returns_pure _
    | apply returns_ite
    | apply returns_bind
    | intro _

/-- The command branches return for every frame when the nested call of
`process_commands` returns. -/
theorem dispatchCommand_returns_of_nested (cfg : Config) (env : Env) (nested : M Unit)
    (t1 t2 t3 : Nat) (h : Returns nested) :
    Returns (dispatchCommand cfg env nested t1 t2 t3) := by
  unfold dispatchCommand
  repeat first
    | exact h
    | exact returns_getS
    | exact returns_modifyS _
    | exact returns_invoke _ _
    | exact returns_txPayload _ _
    | exact returns_isFilamentLoaded
    | exact returns_pure _
    | apply returns_ite
    | apply returns_bind
    | intro _

/-- The Load frame `L 1` with filament present and no nesting depth left: the
ACK, the sensor reading, the busy message and the delay are on the record, and
the call does not return. -/
theorem load_frame_without_depth :
    process_commands cfg5 quietEnv 0 loadState =
      ([Event.ack, Event.finda true, Event.payload msgZ1, Event.call (Collab.delay 1000)],
        none) := by
  simp [process_commands, processBody, dispatchCommand, M.seq, M.stuck, getS, modifyS, invoke,
    isFilamentLoaded, txACK, txPayload, loadState, stateOf, hwConst, frameLink, dev1, cfg5,
    quietEnv, resendDue, csumOK, tCSUM, rawCSUM]

/-- The same Load frame with one nested call allowed: the nested call finds
the frame already acknowledged and returns, and so does the outer call. -/
theorem load_frame_with_depth_one :
    eventsOf (process_commands cfg5 quietEnv 1 loadState) =
      some [Event.ack, Event.finda true, Event.payload msgZ1, Event.call (Collab.delay 1000),
        Event.payload msgZZZ, Event.payload cfg5.OK] := by
  simp [eventsOf, process_commands, processBody, dispatchCommand, M.seq, M.stuck, getS, modifyS,
    invoke, isFilamentLoaded, txACK, txPayload, loadState, stateOf, hwConst, frameLink, dev1,
    cfg5, quietEnv, resendDue, csumOK, tCSUM, rawCSUM]

/-- The events of a returning sequence split into those of its two parts. -/
theorem eventsOf_seq {α : Type} (x : M α) (f : α → M Unit) (s : S) (o : List Event)
    (h : eventsOf (M.seq x f s) = some o) :
    ∃ a s1 o1 o2, x s = (o1, some (a, s1)) ∧ eventsOf (f a s1) = some o2 ∧ o = o1 ++ o2 := by
  rw [seq_run] at h
  unfold eventsOf at h
  rcases hx : x s with ⟨o1, _ | ⟨a, s1⟩⟩
  · simp [hx] at h
  · rcases hf : f a s1 with ⟨o2, _ | ⟨u, s2⟩⟩
    · simp [hx, hf] at h
    · refine ⟨a, s1, o1, o2, rfl, ?_, ?_⟩
      · simp [hf, eventsOf]
      · simp [hx, hf] at h
        exact h.symm

/-- The loop test of `fixTheProblem` on the next readings. -/
theorem problemPersists_eq (s : S) :
    problemPersists s =
      if s.hw.buttons s.hw.buttonReads = Button.ADC_Btn_Middle then
        ([Event.button Button.ADC_Btn_Middle, Event.finda (s.hw.finda s.hw.findaReads)],
          some (s.hw.finda s.hw.findaReads,
            { s with hw := { s.hw with buttonReads := s.hw.buttonReads + 1,
                                       findaReads := s.hw.findaReads + 1 } }))
      else
        ([Event.button (s.hw.buttons s.hw.buttonReads)],
          some (true,
            { s with hw := { s.hw with buttonReads := s.hw.buttonReads + 1 } })) := by
  by_cases hb : s.hw.buttons s.hw.buttonReads = Button.ADC_Btn_Middle
  · simp [problemPersists, M.seq, buttonClicked, isFilamentLoaded, hb]
  · simp [problemPersists, M.seq, buttonClicked, isFilamentLoaded, hb]

/-- A loop test that ends the loop read the middle button and no filament. -/
theorem problemPersists_false (s s1 : S) (o1 : List Event)
    (h : problemPersists s = (o1, some (false, s1))) :
    o1 = [Event.button Button.ADC_Btn_Middle, Event.finda false] ∧
      s.hw.buttons s.hw.buttonReads = Button.ADC_Btn_Middle ∧
      s.hw.finda s.hw.findaReads = false := by
  rw [problemPersists_eq] at h
  split at h
  · rename_i hb
    simp only [Prod.mk.injEq, Option.some.injEq] at h
    obtain ⟨ho, hv, -⟩ := h
    rw [hv] at ho
    exact ⟨ho.symm, hb, hv⟩
  · simp at h

/-- The idle power-down check of `loop()`, evaluated. -/
theorem idlePowerDown_eq (cfg : Config) (env : Env) (s : S) :
    idlePowerDown cfg env s =
      if cfg.WAKE_TIMER < elapsedSinceWake s then
        if s.hw.finda s.hw.findaReads = false ∧ s.dev.isPrinting = false ∧
            s.hw.shr16_ena ≠ 111 then
          ([Event.finda false, Event.call Collab.disableAllSteppers] ++
              (env.run Collab.disableAllSteppers
                { s with hw := { s.hw with findaReads := s.hw.findaReads + 1 } }).2,
            some ((),
              (env.run Collab.disableAllSteppers
                { s with hw := { s.hw with findaReads := s.hw.findaReads + 1 } }).1))
        else
          ([Event.finda (s.hw.finda s.hw.findaReads)],
            some ((), { s with hw := { s.hw with findaReads := s.hw.findaReads + 1 } }))
      else ([], some ((), s)) := by
  by_cases h1 : cfg.WAKE_TIMER < elapsedSinceWake s
  · rcases h2 : s.hw.finda s.hw.findaReads with _ | _
    · rcases h3 : s.dev.isPrinting with _ | _
      · by_cases h4 : s.hw.shr16_ena = 111
        · simp [idlePowerDown, M.seq, getS, isFilamentLoaded, invoke, h1, h2, h3, h4]
        · simp [idlePowerDown, M.seq, getS, isFilamentLoaded, invoke, h1, h2, h3, h4]
      · simp [idlePowerDown, M.seq, getS, isFilamentLoaded, invoke, h1, h2, h3]
    · simp [idlePowerDown, M.seq, getS, isFilamentLoaded, invoke, h1, h2]
  · simp [idlePowerDown, M.seq, getS, isFilamentLoaded, invoke, h1]

/-! ## The claims -/

/-- C1, as stated, fails in the error state: the frame `T 1` is confirmed, its
checksum `85` is the sum of its bytes, no resend is pending and no NACK is
requested, yet with `inErrorState` set `process_commands` sends nothing at
all, so no ACK, and runs no command. -/
theorem C1_counterexample_error_state :
    resendDue cfg5 errorState = false ∧
    errorState.link.confirmedPayload = true ∧
    rawCSUM errorState.link = payloadSum errorState.link ∧
    errorState.link.txNAKNext = false ∧
    (process_commands cfg5 quietEnv 0 errorState).1 = [] ∧
    eventsOf (process_commands cfg5 quietEnv 0 errorState) = some [] ∧
    devOf (process_commands cfg5 quietEnv 0 errorState) = some errorState.dev := by
  decide

/-- C1 (amended): for every state that is not in the error state and every
received frame that is confirmed and whose 16-bit checksum equals the sum of
its three payload bytes, with no resend due and no NACK requested, one call of
`process_commands` is: the ACK byte (after the ACK of a triggered filament
sensor, if any), then the command branches run exactly once on the frame, all
of their events following the ACK. The ACK byte is on the wire for every
frame and every nesting depth, also when the call does not return; what
stands before it is ACK bytes only. The call returns for every frame other
than a Load, and for a Load as well when the nested call returns. -/
theorem C1_ack_then_dispatch_once (cfg : Config) (env : Env) (depth : Nat) (s : S)
    (hres : resendDue cfg s = false)
    (hconf : s.link.confirmedPayload = true)
    (hcs : rawCSUM s.link = payloadSum s.link)
    (hnak : (afterFsensor env s.link).txNAKNext = false)
    (herr : s.dev.inErrorState = false) :
    process_commands cfg env depth s =
        prependEvents (fsensorAcks s.link ++ [Event.ack])
          (dispatchCommand cfg env (nestedCall cfg env depth)
            (s.link.rxData1 % 256) (s.link.rxData2 % 256) (s.link.rxData3 % 256)
            (ackedState env s)) ∧
      (process_commands cfg env depth s).1 =
        fsensorAcks s.link ++ Event.ack ::
          (dispatchCommand cfg env (nestedCall cfg env depth)
            (s.link.rxData1 % 256) (s.link.rxData2 % 256) (s.link.rxData3 % 256)
            (ackedState env s)).1 ∧
      (∀ e ∈ fsensorAcks s.link, e = Event.ack) ∧
      ((s.link.rxData1 % 256 ≠ 'L'.toNat ∨ Returns (nestedCall cfg env depth)) →
        (process_commands cfg env depth s).2.isSome = true) := by
  have key := process_commands_dispatched cfg env depth s hres hconf hcs hnak herr
  refine ⟨key, ?_, ?_, ?_⟩
  · rw [key]
    simp [prependEvents]
  · intro e he
    unfold fsensorAcks at he
    split at he <;> simp_all
  · intro hop
    rw [key]
    rcases hop with hop | hop
    · exact dispatchCommand_returns cfg env _ _ _ _ hop _
    · exact dispatchCommand_returns_of_nested cfg env _ _ _ _ hop _

/-- C1 (amended), at the Load frame `L 1` with filament present and no
nesting depth left: the ACK is sent although the call does not return. -/
theorem C1_witness :
    process_commands cfg5 quietEnv 0 loadState =
        prependEvents (fsensorAcks loadState.link ++ [Event.ack])
          (dispatchCommand cfg5 quietEnv (nestedCall cfg5 quietEnv 0)
            (loadState.link.rxData1 % 256) (loadState.link.rxData2 % 256)
            (loadState.link.rxData3 % 256) (ackedState quietEnv loadState)) ∧
      (process_commands cfg5 quietEnv 0 loadState).1 =
        fsensorAcks loadState.link ++ Event.ack ::
          (dispatchCommand cfg5 quietEnv (nestedCall cfg5 quietEnv 0)
            (loadState.link.rxData1 % 256) (loadState.link.rxData2 % 256)
            (loadState.link.rxData3 % 256) (ackedState quietEnv loadState)).1 ∧
      (∀ e ∈ fsensorAcks loadState.link, e = Event.ack) ∧
      ((loadState.link.rxData1 % 256 ≠ 'L'.toNat ∨ Returns (nestedCall cfg5 quietEnv 0)) →
        (process_commands cfg5 quietEnv 0 loadState).2.isSome = true) :=
  C1_ack_then_dispatch_once cfg5 quietEnv 0 loadState
    (by decide) (by decide) (by decide) (by decide) (by decide)

/-- C2, as stated, fails when `fsensor_triggered` is set: the confirmed frame
`T 1` with the wrong checksum `86` is answered with an ACK byte and then the
NACK byte. -/
theorem C2_counterexample_fsensor_ack :
    resendDue cfg5 badSumFsensorState = false ∧
    badSumFsensorState.link.confirmedPayload = true ∧
    rawCSUM badSumFsensorState.link ≠ payloadSum badSumFsensorState.link ∧
    eventsOf (process_commands cfg5 quietEnv 0 badSumFsensorState) =
      some [Event.ack, Event.nack] := by
  decide

/-- C2 (amended): for every state and every confirmed frame whose checksum
differs from the sum of its three payload bytes, no resend being due, one call
of `process_commands` returns having put on the wire the NACK byte, preceded
by one ACK byte exactly when `fsensor_triggered` was set, and nothing else: no
reply payload. It runs no command and no collaborator and changes no
device-state field and no hardware input: only link-session fields change
(the clearing of `fsensor_triggered` and the bookkeeping of `txACK`). -/
theorem C2_bad_checksum_nack_only (cfg : Config) (env : Env) (depth : Nat) (s : S)
    (hres : resendDue cfg s = false)
    (hconf : s.link.confirmedPayload = true)
    (hcs : rawCSUM s.link ≠ payloadSum s.link) :
    process_commands cfg env depth s =
      (fsensorAcks s.link ++ [Event.nack],
        some ((), { s with link := env.ackLink false (afterFsensor env s.link) })) := by
  have hc := (csumOK_false_iff s.link).2 hcs
  rw [process_commands_eq]
  rcases hf : s.link.fsensor_triggered with _ | _
  · simp [processBody, M.seq, getS, modifyS, txACK, hres, hf, hconf, hc, fsensorAcks,
      afterFsensor]
  · simp [processBody, M.seq, getS, modifyS, txACK, hres, hf, hconf, hc, fsensorAcks,
      afterFsensor]

/-- C2 (amended), at the frame `T 1` with the wrong checksum `86` and
`fsensor_triggered` set. -/
theorem C2_witness :
    process_commands cfg5 quietEnv 0 badSumFsensorState =
      (fsensorAcks badSumFsensorState.link ++ [Event.nack],
        some ((), { badSumFsensorState with
          link := quietEnv.ackLink false (afterFsensor quietEnv badSumFsensorState.link) })) :=
  C2_bad_checksum_nack_only cfg5 quietEnv 0 badSumFsensorState
    (by decide) (by decide) (by decide)

/-- C4: for every channel `c < EXTRUDERS`, a dispatched Tool-Change `T c`
in a state where `active_extruder = c`, `isFilamentLoaded()` reads true and
`m600RunoutChanging` is false replies `OK` and sets `duplicateTCmd`; no
collaborator is called (so no `toolChange`), and `active_extruder`,
`m600RunoutChanging` and `mmuFSensorLoading` keep their values: of the device
state only `duplicateTCmd` is written. -/
theorem C4_duplicate_tool_change (cfg : Config) (env : Env) (depth : Nat) (s : S) (c : Nat)
    (hres : resendDue cfg s = false)
    (hconf : s.link.confirmedPayload = true)
    (hcs : rawCSUM s.link = payloadSum s.link)
    (hnak : (afterFsensor env s.link).txNAKNext = false)
    (herr : s.dev.inErrorState = false)
    (hop : s.link.rxData1 % 256 = 'T'.toNat)
    (harg : s.link.rxData2 % 256 = c)
    (hc : c < cfg.EXTRUDERS)
    (hact : s.dev.active_extruder = c)
    (hload : s.hw.finda s.hw.findaReads = true)
    (hrun : s.dev.m600RunoutChanging = false) :
    process_commands cfg env depth s =
      (fsensorAcks s.link ++ [Event.ack, Event.finda true, Event.payload cfg.OK],
        some ((),
          { link := env.payloadLink cfg.OK s.hw.millis
              (env.ackLink true (afterFsensor env s.link))
            dev := { s.dev with duplicateTCmd := true }
            hw := { s.hw with findaReads := s.hw.findaReads + 1 } })) := by
  rw [process_commands_dispatched cfg env depth s hres hconf hcs hnak herr, hop, harg]
  simp [dispatchCommand, M.seq, getS, modifyS, txPayload, isFilamentLoaded, prependEvents,
    ackedState, hc, hact, hload, hrun]

/-- C4, at the frame `T 1` with channel 1 active and loaded. -/
theorem C4_witness :
    process_commands cfg5 quietEnv 0 toolChangeState =
      (fsensorAcks toolChangeState.link ++
          [Event.ack, Event.finda true, Event.payload cfg5.OK],
        some ((),
          { link := quietEnv.payloadLink cfg5.OK toolChangeState.hw.millis
              (quietEnv.ackLink true (afterFsensor quietEnv toolChangeState.link))
            dev := { toolChangeState.dev with duplicateTCmd := true }
            hw := { toolChangeState.hw with
              findaReads := toolChangeState.hw.findaReads + 1 } })) :=
  C4_duplicate_tool_change cfg5 quietEnv 0 toolChangeState 1
    (by decide) (by decide) (by decide) (by decide) (by decide) (by decide) (by decide)
    (by decide) (by decide) (by decide) (by decide)

/-- C5: for every state, a dispatched Tool-Change, Load or Eject frame whose
channel byte is at least `EXTRUDERS`, and a dispatched Set-Filament-Type frame
whose channel byte is at least `EXTRUDERS` or whose type byte exceeds 2, ends
in the state reached right after the ACK: nothing but ACK bytes is sent (no
reply payload), no collaborator is called, and the device state, with
`filament_type`, `active_extruder`, `duplicateTCmd`, `m600RunoutChanging` and
`isPrinting`, and the hardware inputs are unchanged. -/
theorem C5_channel_bounds (cfg : Config) (env : Env) (depth : Nat) (s : S)
    (hres : resendDue cfg s = false)
    (hconf : s.link.confirmedPayload = true)
    (hcs : rawCSUM s.link = payloadSum s.link)
    (hnak : (afterFsensor env s.link).txNAKNext = false)
    (herr : s.dev.inErrorState = false)
    (hbad :
      ((s.link.rxData1 % 256 = 'T'.toNat ∨ s.link.rxData1 % 256 = 'L'.toNat ∨
          s.link.rxData1 % 256 = 'E'.toNat) ∧ cfg.EXTRUDERS ≤ s.link.rxData2 % 256) ∨
      (s.link.rxData1 % 256 = 'F'.toNat ∧
        (cfg.EXTRUDERS ≤ s.link.rxData2 % 256 ∨ 2 < s.link.rxData3 % 256))) :
    process_commands cfg env depth s =
      (fsensorAcks s.link ++ [Event.ack],
        some ((), { s with link := env.ackLink true (afterFsensor env s.link) })) := by
  rw [process_commands_dispatched cfg env depth s hres hconf hcs hnak herr]
  rcases hbad with ⟨hop | hop | hop, hch⟩ | ⟨hop, hch | hty⟩
  · simp [dispatchCommand, prependEvents, ackedState, hop, Nat.not_lt.2 hch]
  · simp [dispatchCommand, prependEvents, ackedState, hop, Nat.not_lt.2 hch]
  · simp [dispatchCommand, prependEvents, ackedState, hop, Nat.not_lt.2 hch]
  · simp [dispatchCommand, prependEvents, ackedState, hop, Nat.not_lt.2 hch]
  · simp [dispatchCommand, prependEvents, ackedState, hop, Nat.not_le.2 hty]

/-- C5, at the frame `T 7` with five channels. -/
theorem C5_witness :
    process_commands cfg5 quietEnv 0 badChannelState =
      (fsensorAcks badChannelState.link ++ [Event.ack],
        some ((),
          { badChannelState with
            link := quietEnv.ackLink true (afterFsensor quietEnv badChannelState.link) })) :=
  C5_channel_bounds cfg5 quietEnv 0 badChannelState
    (by decide) (by decide) (by decide) (by decide) (by decide)
    (Or.inl ⟨Or.inl (by decide), by decide⟩)

/-- The Mode branch runs for every subcode: a dispatched frame `M x` with
`x` neither `0` nor `1` calls `tmc2130_init` with the unchanged
`tmc2130_mode` and replies `OK`. -/
theorem mode_other_subcode (cfg : Config) (env : Env) (depth : Nat) (s : S)
    (hres : resendDue cfg s = false)
    (hconf : s.link.confirmedPayload = true)
    (hcs : rawCSUM s.link = payloadSum s.link)
    (hnak : (afterFsensor env s.link).txNAKNext = false)
    (herr : s.dev.inErrorState = false)
    (hop : s.link.rxData1 % 256 = 'M'.toNat)
    (h0 : s.link.rxData2 % 256 ≠ '0'.toNat)
    (h1 : s.link.rxData2 % 256 ≠ '1'.toNat) :
    eventsOf (process_commands cfg env depth s) =
      some (fsensorAcks s.link ++ [Event.ack, Event.call (Collab.tmc2130_init s.dev.tmc2130_mode)]
        ++ (env.run (Collab.tmc2130_init s.dev.tmc2130_mode) (ackedState env s)).2
        ++ [Event.payload cfg.OK]) := by
  simp only [Char.reduceToNat] at h0 h1
  rw [process_commands_dispatched cfg env depth s hres hconf hcs hnak herr, hop]
  simp [dispatchCommand, M.seq, getS, modifyS, txPayload, invoke, prependEvents, eventsOf,
    ackedState, h0, h1]

/-- C6 fails on the code at the Mode command: the dispatched frame `M 5`
(subcode neither `0` nor `1`, checksum correct) is not ignored:
`process_commands` calls `tmc2130_init` with the current mode and sends the
reply payload `OK`. -/
theorem C6_mode_bad_subcode_not_ignored :
    resendDue cfg5 badModeState = false ∧
    badModeState.link.confirmedPayload = true ∧
    rawCSUM badModeState.link = payloadSum badModeState.link ∧
    badModeState.link.rxData1 % 256 = 'M'.toNat ∧
    badModeState.link.rxData2 % 256 = '5'.toNat ∧
    eventsOf (process_commands cfg5 quietEnv 0 badModeState) =
      some [Event.ack, Event.call (Collab.tmc2130_init 0), Event.payload cfg5.OK] := by
  decide

/-- C9: for every state, a dispatched Start frame is read-only: the call
returns, only link-session fields change, no collaborator is called, and
after the ACK at most one reply payload is sent. With subcode `'3'` and
`active_extruder = k` (a byte value, `k < 256`) the reply is exactly the three
bytes `'O'`, `'K'`, `k`. -/
theorem C9_start_query_read_only (cfg : Config) (env : Env) (depth : Nat) (s : S) (k : Nat)
    (hres : resendDue cfg s = false)
    (hconf : s.link.confirmedPayload = true)
    (hcs : rawCSUM s.link = payloadSum s.link)
    (hnak : (afterFsensor env s.link).txNAKNext = false)
    (herr : s.dev.inErrorState = false)
    (hop : s.link.rxData1 % 256 = 'S'.toNat)
    (hk : s.dev.active_extruder = k) :
    (s.link.rxData2 % 256 = '3'.toNat → k < 256 →
      process_commands cfg env depth s =
        (fsensorAcks s.link ++ [Event.ack, Event.payload ⟨'O'.toNat, 'K'.toNat, k⟩],
          some ((),
            { s with
              link := env.payloadLink ⟨'O'.toNat, 'K'.toNat, k⟩ s.hw.millis
                (env.ackLink true (afterFsensor env s.link)) }))) ∧
    (∃ l o, process_commands cfg env depth s =
        (fsensorAcks s.link ++ Event.ack :: o, some ((), { s with link := l })) ∧
      (o = [] ∨ ∃ p, o = [Event.payload p])) := by
  rw [process_commands_dispatched cfg env depth s hres hconf hcs hnak herr, hop]
  constructor
  · intro harg hlt
    rw [harg]
    simp [dispatchCommand, M.seq, getS, txPayload, prependEvents, ackedState, hk,
      Nat.mod_eq_of_lt hlt]
  · by_cases a0 : s.link.rxData2 % 256 = '0'.toNat
    · exact ⟨env.payloadLink cfg.OK s.hw.millis (env.ackLink true (afterFsensor env s.link)),
        [Event.payload cfg.OK], by
        simp [dispatchCommand, M.seq, getS, txPayload, prependEvents, ackedState, a0], by simp⟩
    by_cases a1 : s.link.rxData2 % 256 = '1'.toNat
    · exact ⟨env.payloadLink
          ⟨(cfg.FW_VERSION / 256) % 256, cfg.FW_VERSION % 256, cfg.BLK % 256⟩ s.hw.millis
          (env.ackLink true (afterFsensor env s.link)),
        [Event.payload ⟨(cfg.FW_VERSION / 256) % 256, cfg.FW_VERSION % 256, cfg.BLK % 256⟩], by
        simp [dispatchCommand, M.seq, getS, txPayload, prependEvents, ackedState, a1], by simp⟩
    by_cases a2 : s.link.rxData2 % 256 = '2'.toNat
    · exact ⟨env.payloadLink
          ⟨(cfg.FW_BUILDNR / 256) % 256, cfg.FW_BUILDNR % 256, cfg.BLK % 256⟩ s.hw.millis
          (env.ackLink true (afterFsensor env s.link)),
        [Event.payload ⟨(cfg.FW_BUILDNR / 256) % 256, cfg.FW_BUILDNR % 256, cfg.BLK % 256⟩], by
        simp [dispatchCommand, M.seq, getS, txPayload, prependEvents, ackedState, a2], by simp⟩
    by_cases a3 : s.link.rxData2 % 256 = '3'.toNat
    · exact ⟨env.payloadLink ⟨'O'.toNat, 'K'.toNat, s.dev.active_extruder % 256⟩ s.hw.millis
          (env.ackLink true (afterFsensor env s.link)),
        [Event.payload ⟨'O'.toNat, 'K'.toNat, s.dev.active_extruder % 256⟩], by
        simp [dispatchCommand, M.seq, getS, txPayload, prependEvents, ackedState, a3], by simp⟩
    · simp only [Char.reduceToNat] at a0 a1 a2 a3
      exact ⟨env.ackLink true (afterFsensor env s.link), [], by
        simp [dispatchCommand, M.seq, getS, txPayload, prependEvents, ackedState, a0, a1, a2, a3],
        by simp⟩

/-- C9, at the frame `S 3` with channel 2 active: the reply is `'O'`, `'K'`, `2`. -/
theorem C9_witness :
    process_commands cfg5 quietEnv 0 startQueryState =
      (fsensorAcks startQueryState.link ++
          [Event.ack, Event.payload ⟨'O'.toNat, 'K'.toNat, 2⟩],
        some ((),
          { startQueryState with
            link := quietEnv.payloadLink ⟨'O'.toNat, 'K'.toNat, 2⟩ startQueryState.hw.millis
              (quietEnv.ackLink true (afterFsensor quietEnv startQueryState.link)) })) :=
  (C9_start_query_read_only cfg5 quietEnv 0 startQueryState 2
    (by decide) (by decide) (by decide) (by decide) (by decide) (by decide) (by decide)).1
    (by decide) (by decide)

/-- C10: for every received frame and every state with `inErrorState` set,
one call of `process_commands` returns having changed link-session fields
only (the device state and the hardware inputs are as before) and having
produced no collaborator call: every event is an ACK byte, a NACK byte or the
retained payload. The link layer stays live: a due resend retransmits
`lastTxPayload`, and otherwise a confirmed frame with a bad checksum is
answered with the NACK byte. -/
theorem C10_error_state_suspends_dispatch (cfg : Config) (env : Env) (depth : Nat) (s : S)
    (herr : s.dev.inErrorState = true) :
    ∃ l o, process_commands cfg env depth s = (o, some ((), { s with link := l })) ∧
      (∀ e ∈ o, e = Event.ack ∨ e = Event.nack ∨ e = Event.payload s.link.lastTxPayload) ∧
      (resendDue cfg s = true → o = [Event.payload s.link.lastTxPayload]) ∧
      (resendDue cfg s = false → s.link.confirmedPayload = true →
        rawCSUM s.link ≠ payloadSum s.link → o = fsensorAcks s.link ++ [Event.nack]) := by
  rw [process_commands_eq]
  by_cases hres : resendDue cfg s = true
  · exact ⟨env.payloadLink s.link.lastTxPayload s.hw.millis
        { s.link with txRESEND := false, confirmedPayload := false, startRxFlag := false },
      [Event.payload s.link.lastTxPayload], by
      simp [processBody, M.seq, getS, modifyS, txPayload, hres], by simp, by simp, by simp [hres]⟩
  · have hres : resendDue cfg s = false := by simpa using hres
    rcases hf : s.link.fsensor_triggered with _ | _
    · by_cases hn : (s.link.confirmedPayload = true ∧ csumOK s.link = false) ∨
          s.link.txNAKNext = true
      · refine ⟨env.ackLink false s.link, [Event.nack], ?_, ?_, ?_, ?_⟩
        · simp [processBody, M.seq, getS, modifyS, txACK, hres, hf, hn, herr]
        · simp
        · simp [hres]
        · simp [fsensorAcks, hf]
      · refine ⟨s.link, [], ?_, ?_, ?_, ?_⟩
        · simp [processBody, M.seq, getS, modifyS, txACK, hres, hf, hn, herr]
        · simp
        · simp [hres]
        · intro _ hconf hcs
          exact absurd (Or.inl ⟨hconf, (csumOK_false_iff s.link).2 hcs⟩) hn
    · by_cases hn : (s.link.confirmedPayload = true ∧ csumOK s.link = false) ∨
          (env.ackLink true s.link).txNAKNext = true
      · refine ⟨env.ackLink false { env.ackLink true s.link with fsensor_triggered := false },
          [Event.ack, Event.nack], ?_, ?_, ?_, ?_⟩
        · simp [processBody, M.seq, getS, modifyS, txACK, hres, hf, hn, herr]
        · simp
        · simp [hres]
        · simp [fsensorAcks, hf]
      · refine ⟨{ env.ackLink true s.link with fsensor_triggered := false }, [Event.ack],
          ?_, ?_, ?_, ?_⟩
        · simp [processBody, M.seq, getS, modifyS, txACK, hres, hf, hn, herr]
        · simp
        · simp [hres]
        · intro _ hconf hcs
          exact absurd (Or.inl ⟨hconf, (csumOK_false_iff s.link).2 hcs⟩) hn

/-- C10, in the error state, once with a resend requested (the retained
payload is retransmitted) and once with the frame `T 1` under the wrong
checksum `86` (the NACK byte is sent). -/
theorem C10_witness :
    (∃ l, process_commands cfg5 quietEnv 0 errorResendState =
        ([Event.payload errorResendState.link.lastTxPayload],
          some ((), { errorResendState with link := l }))) ∧
    (∃ l, process_commands cfg5 quietEnv 0 errorBadSumState =
        (fsensorAcks errorBadSumState.link ++ [Event.nack],
          some ((), { errorBadSumState with link := l }))) :=
  ⟨(C10_error_state_suspends_dispatch cfg5 quietEnv 0 errorResendState (by decide)).elim
      fun l h => h.elim fun _ h => ⟨l, (h.2.2.1 (by decide)) ▸ h.1⟩,
    (C10_error_state_suspends_dispatch cfg5 quietEnv 0 errorBadSumState (by decide)).elim
      fun l h => h.elim fun _ h =>
        ⟨l, (h.2.2.2 (by decide) (by decide) (by decide)) ▸ h.1⟩⟩

/-- C7: for every sequence of button and filament-sensor readings, both
values of `showPrevious` and every number of iterations, if the loop of
`fixTheProblem` exits, the last two events of its run are the readings of the
loop test it exited at: `buttonClicked()` returned the middle button and
`isFilamentLoaded()` returned false. Moreover a single loop test ends the loop
exactly when it reads the middle button and then no filament, so a test at
which filament is reported present never ends it. -/
theorem C7_recovery_exit_condition (cfg : Config) (env : Env) (depth : Nat)
    (showPrevious : Bool) (n : Nat) (s : S) (o : List Event)
    (h : eventsOf (fixLoop cfg env depth showPrevious n s) = some o) :
    (∃ pre, o = pre ++ [Event.button Button.ADC_Btn_Middle, Event.finda false]) ∧
    (∀ t : S, ∃ c t1 o1, problemPersists t = (o1, some (c, t1)) ∧
      (c = false ↔ (t.hw.buttons t.hw.buttonReads = Button.ADC_Btn_Middle ∧
        t.hw.finda t.hw.findaReads = false)) ∧
      (Event.finda true ∈ o1 → c = true)) := by
  constructor
  · induction n generalizing s o with
    | zero => simp [fixLoop, M.stuck, eventsOf] at h
    | succ n ih =>
      simp only [fixLoop, bind_run] at h
      obtain ⟨c, s1, o1, o2, h1, h2, rfl⟩ := eventsOf_seq _ _ _ _ h
      cases c with
      | false =>
        have ho1 := (problemPersists_false s s1 o1 h1).1
        simp [eventsOf] at h2
        subst h2
        exact ⟨[], by simp [ho1]⟩
      | true =>
        simp only [if_true, bind_run] at h2
        obtain ⟨_, s2, o3, o4, -, h4, rfl⟩ := eventsOf_seq _ _ _ _ h2
        simp only [bind_run] at h4
        obtain ⟨_, s3, o5, o6, -, h6, rfl⟩ := eventsOf_seq _ _ _ _ h4
        obtain ⟨pre, rfl⟩ := ih s3 o6 h6
        exact ⟨o1 ++ (o3 ++ (o5 ++ pre)), by simp⟩
  · intro t
    rw [problemPersists_eq]
    by_cases hb : t.hw.buttons t.hw.buttonReads = Button.ADC_Btn_Middle
    · rw [if_pos hb]
      refine ⟨_, _, _, rfl, ?_, ?_⟩
      · simp [hb]
      · intro hm
        simpa using hm
    · rw [if_neg hb]
      refine ⟨_, _, _, rfl, ?_, ?_⟩
      · simp [hb]
      · intro _
        rfl

/-- C7, on a recovery whose loop tests read Left, then Middle with filament
present, then Middle with filament gone: the loop exits at the third test. -/
theorem C7_witness :
    (∃ pre, recoveryEvents = pre ++ [Event.button Button.ADC_Btn_Middle, Event.finda false]) ∧
    (∀ t : S, ∃ c t1 o1, problemPersists t = (o1, some (c, t1)) ∧
      (c = false ↔ (t.hw.buttons t.hw.buttonReads = Button.ADC_Btn_Middle ∧
        t.hw.finda t.hw.findaReads = false)) ∧
      (Event.finda true ∈ o1 → c = true)) :=
  C7_recovery_exit_condition cfg5 quietEnv 0 false 3 recoveryState recoveryEvents (by
    simp [eventsOf, fixLoop, problemPersists, jogFilament, moveSmooth, ftypeAt, process_commands,
      processBody, M.seq, getS, modifyS, invoke, isFilamentLoaded, buttonClicked, txACK,
      txPayload, recoveryState, recoveryEvents, cfg5, quietEnv, hwReplay, silentLink, frameLink,
      dev1, resendDue])

/-- C8: in one pass of `loop()`, the idle power-down check at its end calls
`disableAllSteppers` only when all four conditions hold in the state the check
runs in: the time elapsed since the last wake is at least `WAKE_TIMER` (the
code asks for more than `WAKE_TIMER`), `isFilamentLoaded()` reads false,
`isPrinting` is false and `shr16_get_ena()` is not 111; whenever they hold (with
the elapsed time beyond `WAKE_TIMER`) the call is made. While `isPrinting` is
true the check calls no collaborator at all. -/
theorem C8_idle_power_down (cfg : Config) (env : Env) (depth : Nat) (s : S) (o : List Event)
    (h : eventsOf (loop cfg env depth s) = some o) :
    ∃ s1 o1 o2, serveAndSelect cfg env depth s = (o1, some ((), s1)) ∧
      eventsOf (idlePowerDown cfg env s1) = some o2 ∧ o = o1 ++ o2 ∧
      (Event.call Collab.disableAllSteppers ∈ o2 →
        cfg.WAKE_TIMER ≤ elapsedSinceWake s1 ∧ s1.hw.finda s1.hw.findaReads = false ∧
          s1.dev.isPrinting = false ∧ s1.hw.shr16_ena ≠ 111) ∧
      (cfg.WAKE_TIMER < elapsedSinceWake s1 → s1.hw.finda s1.hw.findaReads = false →
        s1.dev.isPrinting = false → s1.hw.shr16_ena ≠ 111 →
        Event.call Collab.disableAllSteppers ∈ o2) ∧
      (s1.dev.isPrinting = true → ∀ c, Event.call c ∉ o2) := by
  simp only [loop, bind_run] at h
  obtain ⟨_, s1, o1, o2, h1, h2, rfl⟩ := eventsOf_seq _ _ _ _ h
  refine ⟨s1, o1, o2, h1, h2, rfl, ?_, ?_, ?_⟩
  · intro hm
    rw [idlePowerDown_eq] at h2
    by_cases c1 : cfg.WAKE_TIMER < elapsedSinceWake s1
    · by_cases c2 : s1.hw.finda s1.hw.findaReads = false ∧ s1.dev.isPrinting = false ∧
          s1.hw.shr16_ena ≠ 111
      · exact ⟨Nat.le_of_lt c1, c2⟩
      · rw [if_pos c1, if_neg c2] at h2
        simp only [eventsOf, Option.map_some', Option.some.injEq] at h2
        rw [← h2] at hm
        simp at hm
    · rw [if_neg c1] at h2
      simp only [eventsOf, Option.map_some', Option.some.injEq] at h2
      rw [← h2] at hm
      simp at hm
  · intro c1 c2 c3 c4
    rw [idlePowerDown_eq, if_pos c1, if_pos ⟨c2, c3, c4⟩] at h2
    simp only [eventsOf, Option.map_some', Option.some.injEq] at h2
    rw [← h2]
    simp
  · intro hp c hm
    rw [idlePowerDown_eq] at h2
    have c2 : ¬(s1.hw.finda s1.hw.findaReads = false ∧ s1.dev.isPrinting = false ∧
        s1.hw.shr16_ena ≠ 111) := by
      simp [hp]
    rw [if_neg c2] at h2
    split at h2 <;>
      · simp only [eventsOf, Option.map_some', Option.some.injEq] at h2
        rw [← h2] at hm
        simp at hm

/-- C8, on one pass of `loop()` over an idle unit whose last wake is 400 s
old: the check calls `disableAllSteppers`. -/
theorem C8_witness :
    ∃ s1 o1 o2, serveAndSelect cfg5 quietEnv 0 idleState = (o1, some ((), s1)) ∧
      eventsOf (idlePowerDown cfg5 quietEnv s1) = some o2 ∧ idleEvents = o1 ++ o2 ∧
      (Event.call Collab.disableAllSteppers ∈ o2 →
        cfg5.WAKE_TIMER ≤ elapsedSinceWake s1 ∧ s1.hw.finda s1.hw.findaReads = false ∧
          s1.dev.isPrinting = false ∧ s1.hw.shr16_ena ≠ 111) ∧
      (cfg5.WAKE_TIMER < elapsedSinceWake s1 → s1.hw.finda s1.hw.findaReads = false →
        s1.dev.isPrinting = false → s1.hw.shr16_ena ≠ 111 →
        Event.call Collab.disableAllSteppers ∈ o2) ∧
      (s1.dev.isPrinting = true → ∀ c, Event.call c ∉ o2) :=
  C8_idle_power_down cfg5 quietEnv 0 idleState idleEvents (by
    simp [eventsOf, loop, serveAndSelect, manual_extruder_selector, idlePowerDown,
      process_commands, processBody, M.seq, getS, modifyS, invoke, isFilamentLoaded,
      buttonClicked, txACK, txPayload, idleState, idleEvents, cfg5, quietEnv, hwReplay,
      silentLink, frameLink, dev1, resendDue, elapsedSinceWake])


end MMU
